import Mathlib

/-!
Verification of the Synchronization & Retrieval-Augmented Chat Pipeline
(backend of the 2nd-Brains repository) against its specification.

The Python services are shallowly embedded as pure Lean functions:
* database tables become `List` values threaded through each operation;
* UUID primary keys become `Nat`; `datetime` timestamps become `Nat` ticks;
* SQL float columns become exact rationals `ℚ` (no claim exercises float
  rounding error, and Python `round` ties are never hit by the claims);
* every SQL statement a service issues is recorded in a `DbOp` trace so
  that "single query" / "exactly k operations" claims are statable;
* SHA-256 hashing (`DocumentService._compute_hash`) is injected as an
  abstract function `hash : String → String`;
* `async`/`await` sequencing becomes ordinary sequential evaluation, and a
  Python exception becomes the `Except` error channel.
-/

namespace SecondBrain

/-- `database/models.py` `DocumentStatus` enum. -/
inductive DocumentStatus where
  | pending
  | processing
  | classified
  | indexed
  | failed
deriving DecidableEq, Repr

/-- One row of the `documents` table (`database/models.py` `Document`),
restricted to the columns the verified operations read or write.
`metadata`, `mime_type` and `vector_id` are carried by no claim and are
omitted from the row. -/
structure Document where
  id : Nat
  tenant_id : Nat
  connector_id : Option Nat
  external_id : Option String
  title : String
  content : Option String
  content_hash : Option String
  source_url : Option String
  status : DocumentStatus
  classification : Option String
  classification_confidence : Option ℚ
  project_id : Option Nat
  is_indexed : Bool
  created_at : Nat
  updated_at : Nat
deriving DecidableEq, Repr

/-- The SQL statements the document service can issue against the
`documents` table; used as a trace to state query-count claims. -/
inductive DbOp where
  | selectDocs      -- `select(Document).where(...)`
  | insertDocs      -- `add_all` + `flush` of a batch of new rows
  | updateDocs      -- a single conditional `update(Document)`
  | deleteDocs      -- a single batched `delete(Document)`
  | findExternal    -- the batched external-id lookup select
  | aggStats        -- the single aggregating stats select
deriving DecidableEq, Repr

/-- Python truthiness of an optional string: `None` and `""` are falsy. -/
def truthyStr : Option String → Option String
  | some s => if s = "" then none else some s
  | none => none

/-- `DocumentService.bulk_classify_documents`: empty id list returns 0 with
no statement issued; otherwise one conditional update over the id set
(note: the update is **not** tenant-filtered in the source). Returns the
new table, the SQL rowcount, and the statement trace. -/
def bulk_classify_documents (docs : List Document) (document_ids : List Nat)
    (classification : String) (confidence : ℚ) (now : Nat) :
    List Document × Nat × List DbOp :=
  if document_ids.isEmpty then (docs, 0, [])
  else
    (docs.map fun d =>
      if document_ids.contains d.id then
        { d with classification := some classification,
                 classification_confidence := some confidence,
                 status := DocumentStatus.classified,
                 updated_at := now }
      else d,
     docs.countP (fun d => document_ids.contains d.id),
     [DbOp.updateDocs])

/-- Fuel-driven worker for `chunksOf`; `fuel ≥ l.length` makes it exact
for every positive chunk size. -/
def chunksOfAux (fuel n : Nat) (l : List α) : List (List α) :=
  match fuel with
  | 0 => []
  | fuel + 1 =>
    if l.isEmpty then []
    else l.take n :: chunksOfAux fuel n (l.drop n)

/-- Consecutive chunks of size `n` produced by
`for i in range(0, len(l), n): l[i:i+n]`.  `n = 0` raises in Python and is
never used by the source (callers pass 100); it is mapped to no chunks. -/
def chunksOf (n : Nat) (l : List α) : List (List α) :=
  if n = 0 then [] else chunksOfAux l.length n l

/-- The per-chunk delete loop of `DocumentService.bulk_delete_documents`:
each chunk issues one `delete` filtered by `id ∈ batch ∧ tenant_id = t`
and accumulates its rowcount; a zero-rowcount chunk does not stop the
loop. Returns the table after all chunks, the per-chunk rowcounts in
order, and the statement trace. -/
def bulkDeleteChunks (docs : List Document) (chunks : List (List Nat))
    (tenant_id : Nat) : List Document × List Nat × List DbOp :=
  match chunks with
  | [] => (docs, [], [])
  | batch :: rest =>
    let hit := fun d : Document => batch.contains d.id && d.tenant_id == tenant_id
    let deleted := docs.countP hit
    let docs' := docs.filter fun d => !(hit d)
    let (docs'', counts, ops) := bulkDeleteChunks docs' rest tenant_id
    (docs'', deleted :: counts, DbOp.deleteDocs :: ops)

/-- `DocumentService.bulk_delete_documents`: empty id list short-circuits
to 0 with no statement; otherwise the ids are processed in consecutive
chunks of `batch_size` and the per-chunk rowcounts are summed. -/
def bulk_delete_documents (docs : List Document) (document_ids : List Nat)
    (tenant_id : Nat) (batch_size : Nat) : List Document × Nat × List DbOp :=
  if document_ids.isEmpty then (docs, 0, [])
  else
    let (docs', counts, ops) :=
      bulkDeleteChunks docs (chunksOf batch_size document_ids) tenant_id
    (docs', counts.sum, ops)

/-- `DocumentService.bulk_assign_project`: one conditional update over the
id set, with **no** tenant predicate anywhere in the statement. -/
def bulk_assign_project (docs : List Document) (document_ids : List Nat)
    (project_id : Nat) (now : Nat) : List Document × Nat × List DbOp :=
  if document_ids.isEmpty then (docs, 0, [])
  else
    (docs.map fun d =>
      if document_ids.contains d.id then
        { d with project_id := some project_id, updated_at := now }
      else d,
     docs.countP (fun d => document_ids.contains d.id),
     [DbOp.updateDocs])

/-- `DocumentService.get_documents_by_ids`: single select filtered by the
id set and the tenant. -/
def get_documents_by_ids (docs : List Document) (document_ids : List Nat)
    (tenant_id : Nat) : List Document × List DbOp :=
  if document_ids.isEmpty then ([], [])
  else
    (docs.filter fun d => document_ids.contains d.id && d.tenant_id == tenant_id,
     [DbOp.selectDocs])

/-- `DocumentService.find_by_external_ids`: single batched select filtered
by the external-id set and the connector id (not the tenant). The Python
function returns a dict `external_id → Document`; here the matching rows
are returned and the dict key set is recovered by `knownExternalIds`. -/
def find_by_external_ids (docs : List Document) (external_ids : List String)
    (connector_id : Nat) : List Document × List DbOp :=
  if external_ids.isEmpty then ([], [])
  else
    (docs.filter fun d =>
      (match d.external_id with
       | some e => external_ids.contains e
       | none => false) && d.connector_id == some connector_id,
     [DbOp.findExternal])

/-- Key set of the dict built by `find_by_external_ids`. -/
def knownExternalIds (found : List Document) : List String :=
  found.filterMap (·.external_id)

/-- The result row of `DocumentService.get_document_stats`. -/
structure DocumentStats where
  total : Nat
  pending : Nat
  processing : Nat
  classified : Nat
  indexed : Nat
  failed : Nat
  in_vector_db : Nat
deriving DecidableEq, Repr

/-- `DocumentService.get_document_stats`: one aggregating select over the
tenant rows with `count(id)` and conditional sums (the `or 0` null
coalescing of the source is the `countP = 0` of an empty row set). -/
def get_document_stats (docs : List Document) (tenant_id : Nat) :
    DocumentStats × List DbOp :=
  let rows := docs.filter fun d => d.tenant_id == tenant_id
  ({ total := rows.length,
     pending := rows.countP (fun d => d.status == DocumentStatus.pending),
     processing := rows.countP (fun d => d.status == DocumentStatus.processing),
     classified := rows.countP (fun d => d.status == DocumentStatus.classified),
     indexed := rows.countP (fun d => d.status == DocumentStatus.indexed),
     failed := rows.countP (fun d => d.status == DocumentStatus.failed),
     in_vector_db := rows.countP (fun d => d.is_indexed) },
   [DbOp.aggStats])

/-- Input dict for one document of `DocumentService.create_documents_bulk`,
as built by `run_sync_task`. -/
structure DocumentInput where
  title : String
  content : Option String
  connector_id : Option Nat
  external_id : Option String
  source_url : Option String
deriving DecidableEq, Repr

/-- Row constructed by `create_documents_bulk` for one input dict, with the
model defaults of `database/models.py` (`status=pending`,
`is_indexed=False`). The content hash is `None` for falsy content, exactly
the `if content else None` of the source. -/
def mkDocument (hash : String → String) (id tenant_id now : Nat)
    (inp : DocumentInput) : Document :=
  { id := id,
    tenant_id := tenant_id,
    connector_id := inp.connector_id,
    external_id := inp.external_id,
    title := inp.title,
    content := inp.content,
    content_hash := (truthyStr inp.content).map hash,
    source_url := inp.source_url,
    status := DocumentStatus.pending,
    classification := none,
    classification_confidence := none,
    project_id := none,
    is_indexed := false,
    created_at := now,
    updated_at := now }

/-- `DocumentService.create_documents_bulk`: builds one row per input and
inserts them all with a single `add_all` + `flush`. Generated UUIDs are
modelled by consecutive ids from `nextId`. Returns the new table, the
created rows in input order, the next fresh id, and the trace. -/
def create_documents_bulk (hash : String → String) (docs : List Document)
    (nextId now tenant_id : Nat) (inputs : List DocumentInput) :
    List Document × List Document × Nat × List DbOp :=
  let created := inputs.enum.map fun p =>
    mkDocument hash (nextId + p.1) tenant_id now p.2
  (docs ++ created, created, nextId + inputs.length, [DbOp.insertDocs])

/-! ### Sync orchestration (`api/integration_routes.py`) -/

/-- The columns of a `connectors` row that the sync flow reads or writes. -/
structure ConnectorRec where
  id : Nat
  tenant_id : Nat
  sync_status : String
  sync_error : Option String
  last_sync_at : Option Nat
deriving DecidableEq, Repr

/-- One `sync_progress` row (`database/models.py` `SyncProgress`). -/
structure SyncProgressRec where
  connector_id : Nat
  status : String
  total_items : Nat
  processed_items : Nat
  indexed_items : Nat
  failed_items : Nat
  current_step : Option String
  error_message : Option String
  started_at : Option Nat
  completed_at : Option Nat
deriving DecidableEq, Repr

/-- Column defaults of a freshly constructed `SyncProgress(connector_id=c)`. -/
def defaultProgress (connector_id : Nat) : SyncProgressRec :=
  { connector_id := connector_id, status := "idle",
    total_items := 0, processed_items := 0, indexed_items := 0,
    failed_items := 0, current_step := none, error_message := none,
    started_at := none, completed_at := none }

/-- The slice of the database a single connector's sync flow touches:
`connector` is the `connectors` row with the flow's connector id (if any),
`progress` the `sync_progress` row for that connector (if any), `documents`
the whole documents table, `nextId` the generator of fresh document ids and
`ops` the trace of document-store statements issued so far. -/
structure SyncDb where
  documents : List Document
  connector : Option ConnectorRec
  progress : Option SyncProgressRec
  nextId : Nat
  ops : List DbOp

/-- A FastAPI `HTTPException` as raised by the routes. -/
structure HttpError where
  status_code : Nat
  detail : String
deriving DecidableEq, Repr

/-- `start_sync` route: 404 when the connector row for the id and the
caller tenant is missing; 400 "Sync already in progress" while
`sync_status = "syncing"` (raised before any row is written); otherwise
the progress row is created or reset to a zeroed `"syncing"` snapshot and
the connector transitions to `"syncing"`. -/
def start_sync (db : SyncDb) (tenant_id now : Nat) :
    Except HttpError SyncDb :=
  match db.connector with
  | none => .error { status_code := 404, detail := "Connector not found" }
  | some c =>
    if c.tenant_id ≠ tenant_id then
      .error { status_code := 404, detail := "Connector not found" }
    else if c.sync_status = "syncing" then
      .error { status_code := 400, detail := "Sync already in progress" }
    else
      let p0 := db.progress.getD (defaultProgress c.id)
      let p := { p0 with
        status := "syncing",
        total_items := 0, processed_items := 0,
        indexed_items := 0, failed_items := 0,
        current_step := some "Starting sync...",
        error_message := none,
        started_at := some now, completed_at := none }
      .ok { db with progress := some p,
                    connector := some { c with sync_status := "syncing" } }

/-- One raw item returned by a connector's `fetch_items()`; the `metadata`
dict is carried by no claim and is omitted. -/
structure RawItem where
  external_id : Option String
  title : Option String
  content : Option String
  source_url : Option String
deriving DecidableEq, Repr

/-- The external ids the task collects for the batched lookup:
`[item.get("external_id") for item in items if item.get("external_id")]`
(Python truthiness: `None` and `""` are skipped). -/
def syncExternalIds (items : List RawItem) : List String :=
  items.filterMap fun it => truthyStr it.external_id

/-- The dedup split of `run_sync_task`: an item is known (skipped) when its
external id is truthy and is a key of the batched lookup dict; otherwise it
is new. -/
def sync_new_items (docs : List Document) (items : List RawItem)
    (connector_id : Nat) : List RawItem :=
  let existing := (find_by_external_ids docs (syncExternalIds items) connector_id).1
  items.filter fun it =>
    match truthyStr it.external_id with
    | some e => !((knownExternalIds existing).contains e)
    | none => true

/-- The document dict `run_sync_task` builds for one new item. -/
def syncDocumentInput (connector_id : Nat) (it : RawItem) : DocumentInput :=
  { title := it.title.getD "Untitled",
    content := some (it.content.getD ""),
    connector_id := some connector_id,
    external_id := it.external_id,
    source_url := it.source_url }

/-- The `try` body of `run_sync_task`. A Python exception becomes the error
channel, carrying the exception text together with the partially mutated
state the `except` handler then observes. The sqlalchemy `scalar_one()`
calls raise `NoResultFound` when their row is missing; the vector upsert
and the connector fetch are the two injected external effects. -/
def run_sync_body (hash : String → String) (db : SyncDb)
    (connector_id tenant_id now : Nat) (connector_type : String)
    (classKnown : Bool) (fetched : Except String (List RawItem))
    (upsert : List Document → Except String (List String)) :
    Except (String × SyncDb) SyncDb :=
  match db.progress with
  | none => .error ("No row was found when one was required", db)
  | some progress =>
    if !classKnown then
      -- early `return` (a normal exit, not an exception): only the
      -- progress status and message are written
      .ok { db with progress := some { progress with
              status := "failed",
              error_message := some ("Unknown connector type: " ++ connector_type) } }
    else
      let progress := { progress with
        current_step := some "Fetching items from source..." }
      match fetched with
      | .error e => .error (e, { db with progress := some progress })
      | .ok items =>
        let progress := { progress with
          total_items := items.length,
          current_step := some ("Processing " ++ toString items.length ++ " items...") }
        let lookupOps :=
          (find_by_external_ids db.documents (syncExternalIds items) connector_id).2
        let new_items := sync_new_items db.documents items connector_id
        let db1 : SyncDb :=
          { db with progress := some progress, ops := db.ops ++ lookupOps }
        let afterCreate : Except (String × SyncDb) SyncDb :=
          if new_items.isEmpty then .ok db1
          else
            let (docs', created, nextId', insOps) :=
              create_documents_bulk hash db1.documents db1.nextId now tenant_id
                (new_items.map (syncDocumentInput connector_id))
            let progress := { progress with
              processed_items := created.length,
              current_step := some "Indexing documents..." }
            let db2 : SyncDb :=
              { db1 with documents := docs', nextId := nextId',
                         progress := some progress,
                         ops := db1.ops ++ insOps }
            match upsert created with
            | .error e => .error (e, db2)
            | .ok indexedIds =>
              .ok { db2 with progress := some { progress with
                      indexed_items := indexedIds.length } }
        match afterCreate with
        | .error es => .error es
        | .ok db3 =>
          match db3.progress with
          | none => .error ("No row was found when one was required", db3)
          | some p3 =>
            let p4 := { p3 with
              status := "completed",
              current_step := some "Sync completed",
              completed_at := some now }
            let db4 := { db3 with progress := some p4 }
            match db4.connector with
            | none => .error ("No row was found when one was required", db4)
            | some c =>
              .ok { db4 with connector := some { c with
                      sync_status := "completed", last_sync_at := some now } }

/-- The `except` handler of `run_sync_task`: re-reads the progress and
connector rows (tolerating their absence) and stamps them failed. -/
def sync_error_handler (db : SyncDb) (e : String) (now : Nat) : SyncDb :=
  let db1 := match db.progress with
    | some p => { db with progress := some { p with
        status := "failed", error_message := some e,
        completed_at := some now } }
    | none => db
  match db1.connector with
  | some c => { db1 with connector := some { c with
      sync_status := "failed", sync_error := some e } }
  | none => db1

/-- `run_sync_task`: the body under the `try`, with every uncaught
exception routed into the handler. The function is total: no exception
escapes the background task. -/
def run_sync_task (hash : String → String) (db : SyncDb)
    (connector_id tenant_id now : Nat) (connector_type : String)
    (classKnown : Bool) (fetched : Except String (List RawItem))
    (upsert : List Document → Except String (List String)) : SyncDb :=
  match run_sync_body hash db connector_id tenant_id now connector_type
      classKnown fetched upsert with
  | .ok db' => db'
  | .error (e, db') => sync_error_handler db' e now

/-- The response body of the progress-polling route. -/
structure SyncProgressResponse where
  status : String
  total_items : Nat
  processed_items : Nat
  indexed_items : Nat
  failed_items : Nat
  current_step : Option String
  error_message : Option String
  percent : ℚ
  started_at : Option Nat
  completed_at : Option Nat
deriving DecidableEq, Repr

/-- Python `round(x, 1)` over the exact-rational model of the float
percentage (the claims never exercise the half-to-even tie break). -/
def roundTo1 (q : ℚ) : ℚ := (round (q * 10) : ℤ) / 10

/-- `get_sync_progress` route: 404 when the connector is missing for the
caller tenant; a synthetic idle snapshot when no progress row exists; and
otherwise the stored row with `percent = processed/total*100` computed
only under the `total_items > 0` guard, else 0, then rounded to one
decimal. -/
def get_sync_progress (db : SyncDb) (tenant_id : Nat) :
    Except HttpError SyncProgressResponse :=
  match db.connector with
  | none => .error { status_code := 404, detail := "Connector not found" }
  | some c =>
    if c.tenant_id ≠ tenant_id then
      .error { status_code := 404, detail := "Connector not found" }
    else
      match db.progress with
      | none =>
        .ok { status := "idle", total_items := 0, processed_items := 0,
              indexed_items := 0, failed_items := 0, current_step := none,
              error_message := none, percent := 0,
              started_at := none, completed_at := none }
      | some p =>
        let percent : ℚ :=
          if p.total_items > 0 then
            (p.processed_items : ℚ) / (p.total_items : ℚ) * 100
          else 0
        .ok { status := p.status, total_items := p.total_items,
              processed_items := p.processed_items,
              indexed_items := p.indexed_items,
              failed_items := p.failed_items,
              current_step := p.current_step,
              error_message := p.error_message,
              percent := roundTo1 percent,
              started_at := p.started_at, completed_at := p.completed_at }

/-! ### Bulk document routes (`api/document_routes.py`) -/

/-- `POST /documents/bulk/classify`: the route first loads the requested
ids filtered by the caller tenant and raises 400 when the count differs
from the request length (the source detail text, abridged here to avoid
quoting, is "Some documents not found or do not belong to you"); only then
does it run the tenant-unfiltered service update with the default
confidence 1.0. -/
def bulk_classify_route (docs : List Document) (tenant_id : Nat)
    (document_ids : List Nat) (classification : String) (now : Nat) :
    Except HttpError (List Document × Nat) :=
  let found := (get_documents_by_ids docs document_ids tenant_id).1
  if found.length ≠ document_ids.length then
    .error { status_code := 400,
             detail := "Some documents not found or do not belong to you" }
  else
    let (docs', count, _) :=
      bulk_classify_documents docs document_ids classification 1 now
    .ok (docs', count)

/-- `POST /documents/bulk/delete`: delegates to the tenant-filtered service
delete with `batch_size = 100`. -/
def bulk_delete_route (docs : List Document) (tenant_id : Nat)
    (document_ids : List Nat) : List Document × Nat :=
  let (docs', count, _) := bulk_delete_documents docs document_ids tenant_id 100
  (docs', count)

/-- `POST /documents/bulk/assign-project`: passes the id list straight to
the service, which filters only by id — the caller's tenant is never
consulted. -/
def bulk_assign_project_route (docs : List Document) (tenant_id : Nat)
    (document_ids : List Nat) (project_id : Nat) (now : Nat) :
    List Document × Nat :=
  let (docs', count, _) := bulk_assign_project docs document_ids project_id now
  (docs', count)

/-! ### Retrieval-augmented chat (`services/chat_service.py`) -/

/-- One `chat_messages` row. -/
structure ChatMessageRec where
  id : Nat
  session_id : Nat
  role : String
  content : String
  sources : Option (List String)
  created_at : Nat
deriving DecidableEq, Repr

/-- `ChatService.get_messages`: select the session's messages ordered by
`created_at` **ascending** and apply `limit`, i.e. the oldest `limit`
messages. -/
def get_messages (msgs : List ChatMessageRec) (session_id : Nat)
    (limit : Nat) : List ChatMessageRec :=
  (((msgs.filter fun m => m.session_id == session_id).mergeSort
      fun a b => a.created_at ≤ b.created_at).take limit)

/-- `ChatService.add_message`: append a new row stamped `now` (the
`session.updated_at` bump touches only the `chat_sessions` row, which no
claim reads). Returns the new table, the created row and the next id. -/
def add_message (msgs : List ChatMessageRec) (nextId now session_id : Nat)
    (role content : String) (sources : Option (List String)) :
    List ChatMessageRec × ChatMessageRec × Nat :=
  let m : ChatMessageRec :=
    { id := nextId, session_id := session_id, role := role,
      content := content, sources := sources, created_at := now }
  (msgs ++ [m], m, nextId + 1)

/-- One hit returned by `VectorService.search` (a metadata dict; a missing
or empty `id` is falsy in Python). -/
structure RetrievedDoc where
  id : Option String
  title : Option String
  content : Option String
deriving DecidableEq, Repr

/-- `ChatService._build_context`: empty retrieval gives the empty string;
otherwise the documents are numbered from 1, titles default to
"Untitled", contents are truncated to 1000 characters and the parts are
joined with blank lines. -/
def build_context (documents : List RetrievedDoc) : String :=
  if documents.isEmpty then ""
  else
    String.intercalate "\n\n" (documents.enum.map fun p =>
      "[" ++ toString (p.1 + 1) ++ "] " ++ p.2.title.getD "Untitled"
        ++ ":\n" ++ (p.2.content.getD "").take 1000)

/-- The generation history `ChatService.chat` builds: the rows returned by
`get_messages(session_id, limit=10)` projected to role/content pairs. -/
def chatHistory (msgs : List ChatMessageRec) (session_id : Nat) :
    List (String × String) :=
  (get_messages msgs session_id 10).map fun m => (m.role, m.content)

/-- The source-id list persisted with the assistant turn:
`[doc.get("id") for doc in relevant_docs if doc.get("id")]`. -/
def chatSourceIds (relevant_docs : List RetrievedDoc) : List String :=
  relevant_docs.filterMap fun d => truthyStr d.id

/-- The value `ChatService.chat` returns. -/
structure ChatTurnResult where
  message : String
  sources : List RetrievedDoc
  message_id : Nat
deriving DecidableEq, Repr

/-- `ChatService.chat`: persist the user turn, load the history, retrieve
(`search` is the injected vector query result for this turn), ground the
generation in `build_context`, persist the assistant turn with the
retrieved ids as sources, and return the response. `generate` is the
injected AI client, applied to the history and the context string. -/
def chat (msgs : List ChatMessageRec) (nextId now session_id : Nat)
    (user_message : String) (search : List RetrievedDoc)
    (generate : List (String × String) → String → String) :
    ChatTurnResult × List ChatMessageRec :=
  let (msgs1, _, nid1) := add_message msgs nextId now session_id "user" user_message none
  let history := chatHistory msgs1 session_id
  let context := build_context search
  let response := generate history context
  let source_ids := chatSourceIds search
  let (msgs2, am, _) :=
    add_message msgs1 nid1 now session_id "assistant" response (some source_ids)
  ({ message := response, sources := search, message_id := am.id }, msgs2)

/-! ### Concrete inputs used by counterexamples and witnesses -/

/-- A document owned by tenant 2, used to exercise the tenant-isolation
claims from the point of view of a caller in tenant 1. -/
def foreignDoc : Document :=
  { id := 1, tenant_id := 2, connector_id := none, external_id := none,
    title := "other tenant row", content := none, content_hash := none,
    source_url := none, status := DocumentStatus.pending,
    classification := none, classification_confidence := none,
    project_id := none, is_indexed := false, created_at := 0, updated_at := 0 }

/-- A second document of tenant 2 under a fresh id, for exercising the
classify route on a mixed-tenant table. -/
def foreignDoc2 : Document := { foreignDoc with id := 2 }

/-- The `i`-th message of a chat session with consecutive creation times. -/
def c2Msg (i : Nat) : ChatMessageRec :=
  { id := i, session_id := 1, role := "user", content := "",
    sources := none, created_at := i }

/-- A session holding eleven messages; `c2Msg 10` plays the just-persisted
user message (the most recent creation time). -/
def c2Msgs : List ChatMessageRec := (List.range 11).map c2Msg

/-- A connector row of tenant 1 in a given sync status. -/
def wConnector (s : String) : ConnectorRec :=
  { id := 1, tenant_id := 1, sync_status := s, sync_error := none,
    last_sync_at := none }

/-- A document of tenant 1 already persisted for connector 1 under the
external id "x". -/
def wDoc : Document :=
  { foreignDoc with tenant_id := 1, external_id := some "x",
                    connector_id := some 1 }

/-- A sync-flow state for connector 1 in the given status, holding the
given documents and progress row. -/
def wDb (s : String) (docs : List Document) (p : Option SyncProgressRec) :
    SyncDb :=
  { documents := docs, connector := some (wConnector s), progress := p,
    nextId := 10, ops := [] }

/-- The raw item a second, unchanged sync fetches for `wDoc`. -/
def wItem : RawItem :=
  { external_id := some "x", title := some "T", content := some "c",
    source_url := none }

/-- The progress row `start_sync` leaves behind on success: the previous
row (or a fresh one) reset to a zeroed `"syncing"` snapshot. -/
def startProgress (db : SyncDb) (c : ConnectorRec) (now : Nat) :
    SyncProgressRec :=
  { (db.progress.getD (defaultProgress c.id)) with
    status := "syncing", total_items := 0, processed_items := 0,
    indexed_items := 0, failed_items := 0,
    current_step := some "Starting sync...",
    error_message := none, started_at := some now, completed_at := none }

/-- The state `start_sync` returns on success. -/
def startSyncResult (db : SyncDb) (c : ConnectorRec) (now : Nat) : SyncDb :=
  { db with connector := some { c with sync_status := "syncing" },
            progress := some (startProgress db c now) }

/-- The progress row of the C3 witness after the task has stepped to the
fetch phase and the connector fetch has raised. -/
def w3Prog : SyncProgressRec :=
  { defaultProgress 1 with
    status := "syncing",
    current_step := some "Fetching items from source..." }

/-- The C3 witness state: connector 1 syncing with a live progress row. -/
def w3Db : SyncDb :=
  wDb "syncing" [] (some { defaultProgress 1 with status := "syncing" })

/-!
## Theorems

Helper lemmas first, then one theorem per claim (with its witness or
counterexample where required).
-/

theorem contains_eq_true_of_mem {l : List Nat} {a : Nat} (h : a ∈ l) :
    l.contains a = true := by
  simpa [List.contains, List.elem_eq_mem] using h

theorem contains_eq_false_of_not_mem {l : List Nat} {a : Nat} (h : a ∉ l) :
    l.contains a = false := by
  simpa [List.contains, List.elem_eq_mem] using h

/-- Partition of a document list by the five lifecycle statuses. -/
theorem length_eq_sum_status_counts (l : List Document) :
    l.length =
      l.countP (fun d => d.status == DocumentStatus.pending) +
      l.countP (fun d => d.status == DocumentStatus.processing) +
      l.countP (fun d => d.status == DocumentStatus.classified) +
      l.countP (fun d => d.status == DocumentStatus.indexed) +
      l.countP (fun d => d.status == DocumentStatus.failed) := by
  induction l with
  | nil => rfl
  | cons d l ih =>
    cases h : d.status <;>
      simp [List.countP_cons, h, ih] <;> omega

/-- C9: for every tenant and document population, the stats row satisfies
`total = pending + processing + classified + indexed + failed`, `total`
counts the tenant's documents, each bucket counts the tenant's documents
in that status, and the whole row is produced by the single aggregating
query. -/
theorem get_document_stats_partition (docs : List Document) (t : Nat) :
    (get_document_stats docs t).1.total =
      (get_document_stats docs t).1.pending +
      (get_document_stats docs t).1.processing +
      (get_document_stats docs t).1.classified +
      (get_document_stats docs t).1.indexed +
      (get_document_stats docs t).1.failed ∧
    (get_document_stats docs t).1.total =
      (docs.filter fun d => d.tenant_id == t).length ∧
    (get_document_stats docs t).1.pending =
      (docs.filter fun d => d.status == DocumentStatus.pending && d.tenant_id == t).length ∧
    (get_document_stats docs t).1.processing =
      (docs.filter fun d => d.status == DocumentStatus.processing && d.tenant_id == t).length ∧
    (get_document_stats docs t).1.classified =
      (docs.filter fun d => d.status == DocumentStatus.classified && d.tenant_id == t).length ∧
    (get_document_stats docs t).1.indexed =
      (docs.filter fun d => d.status == DocumentStatus.indexed && d.tenant_id == t).length ∧
    (get_document_stats docs t).1.failed =
      (docs.filter fun d => d.status == DocumentStatus.failed && d.tenant_id == t).length ∧
    (get_document_stats docs t).2 = [DbOp.aggStats] := by
  refine ⟨length_eq_sum_status_counts _, rfl, ?_, ?_, ?_, ?_, ?_, rfl⟩ <;>
    simp [get_document_stats, List.countP_eq_length_filter, List.filter_filter]

/-- C7: classifying an empty id list returns 0 with no statement issued;
a non-empty id list issues exactly one conditional update that rewrites
exactly the rows of the id set, returns the number of matched rows, and
leaves every row outside the id set in place. -/
theorem bulk_classify_contract (docs : List Document) (ids : List Nat)
    (label : String) (conf : ℚ) (now : Nat) :
    bulk_classify_documents docs [] label conf now = (docs, 0, []) ∧
    (ids ≠ [] →
      bulk_classify_documents docs ids label conf now =
        (docs.map fun d =>
            if ids.contains d.id then
              { d with classification := some label,
                       classification_confidence := some conf,
                       status := DocumentStatus.classified,
                       updated_at := now }
            else d,
         (docs.filter fun d => ids.contains d.id).length,
         [DbOp.updateDocs]) ∧
      (∀ d ∈ docs, d.id ∉ ids →
        d ∈ (bulk_classify_documents docs ids label conf now).1)) := by
  constructor
  · rfl
  · intro hne
    have hempty : ids.isEmpty = false := by
      simpa [List.isEmpty_iff] using hne
    constructor
    · simp [bulk_classify_documents, hempty, List.countP_eq_length_filter]
    · intro d hd hnot
      simp only [bulk_classify_documents, hempty, Bool.false_eq_true,
        if_false, List.mem_map]
      exact ⟨d, hd, by
        simp only [contains_eq_false_of_not_mem hnot, Bool.false_eq_true, if_false]⟩

/-- Witness for C7 at one concrete row and id set. -/
theorem bulk_classify_contract_witness :
    (([1] : List Nat) ≠ []) ∧
    bulk_classify_documents [foreignDoc] [] "work" 1 5 = ([foreignDoc], 0, []) ∧
    bulk_classify_documents [foreignDoc] [1] "work" 1 5 =
      ([{ foreignDoc with
            classification := some "work",
            classification_confidence := some 1,
            status := DocumentStatus.classified,
            updated_at := 5 }],
       1, [DbOp.updateDocs]) := by
  refine ⟨by decide, (bulk_classify_contract [foreignDoc] [] "work" 1 5).1, ?_⟩
  have h := ((bulk_classify_contract [foreignDoc] [1] "work" 1 5).2 (by decide)).1
  exact h.trans (by decide)

theorem length_filter_not_add_countP (p : α → Bool) (l : List α) :
    (l.filter fun a => !(p a)).length + l.countP p = l.length := by
  induction l with
  | nil => rfl
  | cons a l ih =>
    cases h : p a <;> simp [h, List.countP_cons, List.filter_cons, ih] <;> omega

theorem chunksOfAux_step {n fuel : Nat} {l : List α} (h : ¬l.isEmpty = true) :
    chunksOfAux (fuel + 1) n l = l.take n :: chunksOfAux fuel n (l.drop n) := by
  simp [chunksOfAux, h]

theorem chunksOfAux_flatten {n : Nat} (hn : n ≠ 0) :
    ∀ (fuel : Nat) (l : List α), l.length ≤ fuel →
      (chunksOfAux fuel n l).flatten = l := by
  intro fuel
  induction fuel with
  | zero =>
    intro l hl
    have : l = [] := List.length_eq_zero.mp (Nat.le_zero.mp hl)
    subst this; rfl
  | succ fuel ih =>
    intro l hl
    by_cases h : l.isEmpty
    · have : l = [] := List.isEmpty_iff.mp h
      subst this; rfl
    · have hlne : l ≠ [] := fun e => h (by simp [e])
      have hpos : 0 < l.length := List.length_pos.mpr hlne
      rw [chunksOfAux_step h, List.flatten_cons,
        ih (l.drop n) (by simp only [List.length_drop]; omega)]
      exact List.take_append_drop n l

theorem chunksOfAux_length {n : Nat} (hn : n ≠ 0) :
    ∀ (fuel : Nat) (l : List α), l.length ≤ fuel →
      (chunksOfAux fuel n l).length = (l.length + n - 1) / n := by
  intro fuel
  induction fuel with
  | zero =>
    intro l hl
    have : l = [] := List.length_eq_zero.mp (Nat.le_zero.mp hl)
    subst this
    simp [chunksOfAux, Nat.div_eq_of_lt (by omega : n - 1 < n)]
  | succ fuel ih =>
    intro l hl
    by_cases h : l.isEmpty
    · have : l = [] := List.isEmpty_iff.mp h
      subst this
      simp [chunksOfAux, Nat.div_eq_of_lt (by omega : n - 1 < n)]
    · have hlne : l ≠ [] := fun e => h (by simp [e])
      have hpos : 0 < l.length := List.length_pos.mpr hlne
      rw [chunksOfAux_step h, List.length_cons,
        ih (l.drop n) (by simp only [List.length_drop]; omega)]
      simp only [List.length_drop]
      rcases le_or_lt l.length n with hle | hlt
      · have h1 : l.length - n = 0 := by omega
        rw [h1, Nat.div_eq_of_lt (by omega : 0 + n - 1 < n),
          Nat.div_eq_of_lt_le (by omega : 1 * n ≤ l.length + n - 1)
            (by omega : l.length + n - 1 < (1 + 1) * n)]
      · have h2 : l.length - n + n - 1 = l.length - 1 := by omega
        have h3 : l.length + n - 1 = (l.length - 1) + n := by omega
        rw [h2, h3, Nat.add_div_right _ (by omega), Nat.add_comm]

theorem chunksOfAux_bounds {n : Nat} (hn : n ≠ 0) :
    ∀ (fuel : Nat) (l : List α), l.length ≤ fuel →
      ∀ c ∈ chunksOfAux fuel n l, c.length ≤ n ∧ c ≠ [] := by
  intro fuel
  induction fuel with
  | zero =>
    intro l hl
    have : l = [] := List.length_eq_zero.mp (Nat.le_zero.mp hl)
    subst this; intro c hc; cases hc
  | succ fuel ih =>
    intro l hl
    by_cases h : l.isEmpty
    · have : l = [] := List.isEmpty_iff.mp h
      subst this; intro c hc; cases hc
    · have hlne : l ≠ [] := fun e => h (by simp [e])
      have hpos : 0 < l.length := List.length_pos.mpr hlne
      rw [chunksOfAux_step h]
      simp only [List.mem_cons]
      rintro c (rfl | hc)
      · constructor
        · simp only [List.length_take]
          exact Nat.min_le_left n l.length
        · have hlt : (l.take n).length = min n l.length := List.length_take n l
          intro e
          rw [e] at hlt
          simp only [List.length_nil] at hlt
          omega
      · exact ih (l.drop n) (by simp only [List.length_drop]; omega) c hc

/-- Joint characterisation of the batched delete loop: one delete
statement per chunk regardless of the per-chunk rowcounts, one rowcount
per chunk, conservation of rows (initial length = surviving rows plus the
rowcount sum), and preservation of every row of other tenants. -/
theorem bulkDeleteChunks_spec (tenant : Nat) :
    ∀ (chunks : List (List Nat)) (docs : List Document),
      (bulkDeleteChunks docs chunks tenant).2.2 =
        List.replicate chunks.length DbOp.deleteDocs ∧
      (bulkDeleteChunks docs chunks tenant).2.1.length = chunks.length ∧
      docs.length =
        (bulkDeleteChunks docs chunks tenant).1.length +
          ((bulkDeleteChunks docs chunks tenant).2.1).sum ∧
      (∀ d ∈ docs, d.tenant_id ≠ tenant →
        d ∈ (bulkDeleteChunks docs chunks tenant).1) := by
  intro chunks
  induction chunks with
  | nil => intro docs; exact ⟨rfl, rfl, by simp [bulkDeleteChunks], by
      intro d hd _; simpa [bulkDeleteChunks] using hd⟩
  | cons batch rest ih =>
    intro docs
    set hit := fun d : Document =>
      batch.contains d.id && d.tenant_id == tenant with hhit
    set docs' := docs.filter fun d => !(hit d) with hdocs'
    obtain ⟨ihops, ihlen, ihsum, ihframe⟩ := ih docs'
    have hstep : bulkDeleteChunks docs (batch :: rest) tenant =
        ((bulkDeleteChunks docs' rest tenant).1,
         docs.countP hit :: (bulkDeleteChunks docs' rest tenant).2.1,
         DbOp.deleteDocs :: (bulkDeleteChunks docs' rest tenant).2.2) := rfl
    refine ⟨?_, ?_, ?_, ?_⟩
    · rw [hstep]; simp [ihops, List.replicate_succ]
    · rw [hstep]; simp [ihlen]
    · rw [hstep]
      simp only [List.sum_cons]
      have hcons := length_filter_not_add_countP hit docs
      rw [← hdocs'] at hcons
      omega
    · intro d hd hten
      rw [hstep]
      refine ihframe d ?_ hten
      rw [hdocs', List.mem_filter]
      refine ⟨hd, ?_⟩
      have hbeq : (d.tenant_id == tenant) = false := by
        simpa using hten
      simp [hhit, hbeq]

/-- C6: with `batch_size = 100` the id list is split into consecutive
chunks of at most 100 ids whose concatenation is the original list,
exactly `⌈n/100⌉` delete statements are issued — independently of how many
rows each chunk removes, so a zero-row chunk never stops the loop — and
the returned total is the sum of the per-chunk rowcounts, which equals the
number of rows that left the table. -/
theorem bulk_delete_batching (docs : List Document) (ids : List Nat)
    (t : Nat) (hne : ids ≠ []) :
    (chunksOf 100 ids).flatten = ids ∧
    (∀ c ∈ chunksOf 100 ids, c.length ≤ 100 ∧ c ≠ []) ∧
    (chunksOf 100 ids).length = (ids.length + 99) / 100 ∧
    (bulk_delete_documents docs ids t 100).2.2 =
      List.replicate ((ids.length + 99) / 100) DbOp.deleteDocs ∧
    (bulk_delete_documents docs ids t 100).2.1 =
      ((bulkDeleteChunks docs (chunksOf 100 ids) t).2.1).sum ∧
    docs.length = (bulk_delete_documents docs ids t 100).1.length +
      (bulk_delete_documents docs ids t 100).2.1 := by
  have hempty : ids.isEmpty = false := by
    simpa [List.isEmpty_iff] using hne
  have hchunks : chunksOf 100 ids = chunksOfAux ids.length 100 ids := by
    simp [chunksOf]
  have h100 : (100 : Nat) ≠ 0 := by omega
  obtain ⟨hops, hlen, hsum, _⟩ :=
    bulkDeleteChunks_spec t (chunksOf 100 ids) docs
  have hunfold : bulk_delete_documents docs ids t 100 =
      ((bulkDeleteChunks docs (chunksOf 100 ids) t).1,
       ((bulkDeleteChunks docs (chunksOf 100 ids) t).2.1).sum,
       (bulkDeleteChunks docs (chunksOf 100 ids) t).2.2) := by
    simp [bulk_delete_documents, hempty]
  have hcl : (chunksOf 100 ids).length = (ids.length + 99) / 100 := by
    rw [hchunks, chunksOfAux_length h100 ids.length ids (Nat.le_refl _)]
    congr 1
  refine ⟨?_, ?_, hcl, ?_, ?_, ?_⟩
  · rw [hchunks]; exact chunksOfAux_flatten h100 ids.length ids (Nat.le_refl _)
  · rw [hchunks]; exact chunksOfAux_bounds h100 ids.length ids (Nat.le_refl _)
  · rw [hunfold]; rw [hops, hcl]
  · rw [hunfold]
  · rw [hunfold]; exact hsum

/-- Witness for C6: 250 ids produce exactly 3 delete statements; against
an empty table every chunk removes 0 rows and the loop still runs all
three chunks, returning 0. -/
theorem bulk_delete_batching_witness :
    (List.range 250 ≠ []) ∧
    (chunksOf 100 (List.range 250)).length = 3 ∧
    (bulk_delete_documents [] (List.range 250) 1 100).2.2 =
      List.replicate 3 DbOp.deleteDocs ∧
    (bulk_delete_documents [] (List.range 250) 1 100).2.1 = 0 := by
  have h := bulk_delete_batching [] (List.range 250) 1 (by decide)
  refine ⟨by decide, ?_, ?_, ?_⟩
  · exact h.2.2.1.trans (by norm_num)
  · refine h.2.2.2.1.trans ?_
    norm_num
  · have h0 := h.2.2.2.2.2
    simp only [List.length_nil] at h0
    omega

/-- C8: when the vector query returns no documents the grounding context
is the empty string, the generator is invoked with that empty context, the
persisted assistant message carries an empty source list, and the turn
still completes by appending a user and an assistant row. -/
theorem chat_empty_retrieval (msgs : List ChatMessageRec)
    (nextId now sid : Nat) (umsg : String)
    (g : List (String × String) → String → String) :
    build_context ([] : List RetrievedDoc) = "" ∧
    chatSourceIds ([] : List RetrievedDoc) = [] ∧
    (chat msgs nextId now sid umsg [] g).1.sources = [] ∧
    (chat msgs nextId now sid umsg [] g).1.message =
      g (chatHistory (msgs ++
        [{ id := nextId, session_id := sid, role := "user", content := umsg,
           sources := none, created_at := now }]) sid) "" ∧
    (chat msgs nextId now sid umsg [] g).2 =
      (msgs ++
        [{ id := nextId, session_id := sid, role := "user", content := umsg,
           sources := none, created_at := now }]) ++
        [{ id := nextId + 1, session_id := sid, role := "assistant",
           content := g (chatHistory (msgs ++
             [{ id := nextId, session_id := sid, role := "user",
                content := umsg, sources := none, created_at := now }]) sid) "",
           sources := some [], created_at := now }] :=
  ⟨rfl, rfl, rfl, rfl, rfl⟩

/-- C10: for an existing connector of the caller's tenant, a missing
progress row yields the synthetic idle snapshot instead of a 404, and the
percent of every stored snapshot is the guarded ratio — 0 whenever
`total_items = 0`, and `processed/total*100` rounded to one decimal
whenever `total_items > 0`. -/
theorem get_sync_progress_guarded (db : SyncDb) (c : ConnectorRec)
    (tid : Nat) (hc : db.connector = some c) (ht : c.tenant_id = tid) :
    (db.progress = none →
      get_sync_progress db tid =
        .ok { status := "idle", total_items := 0, processed_items := 0,
              indexed_items := 0, failed_items := 0, current_step := none,
              error_message := none, percent := 0,
              started_at := none, completed_at := none }) ∧
    (∀ p, db.progress = some p →
      ∃ r, get_sync_progress db tid = .ok r ∧
        r.status = p.status ∧
        r.total_items = p.total_items ∧
        r.processed_items = p.processed_items ∧
        r.indexed_items = p.indexed_items ∧
        r.failed_items = p.failed_items ∧
        r.current_step = p.current_step ∧
        r.error_message = p.error_message ∧
        r.started_at = p.started_at ∧
        r.completed_at = p.completed_at ∧
        (p.total_items = 0 → r.percent = 0) ∧
        (0 < p.total_items →
          r.percent =
            roundTo1 ((p.processed_items : ℚ) / (p.total_items : ℚ) * 100))) := by
  subst ht
  constructor
  · intro hp
    simp [get_sync_progress, hc, hp]
  · intro p hp
    have heq : get_sync_progress db c.tenant_id = .ok
        { status := p.status, total_items := p.total_items,
          processed_items := p.processed_items,
          indexed_items := p.indexed_items,
          failed_items := p.failed_items,
          current_step := p.current_step,
          error_message := p.error_message,
          percent := roundTo1 (if p.total_items > 0 then
            (p.processed_items : ℚ) / (p.total_items : ℚ) * 100 else 0),
          started_at := p.started_at, completed_at := p.completed_at } := by
      simp [get_sync_progress, hc, hp]
    refine ⟨_, heq, rfl, rfl, rfl, rfl, rfl, rfl, rfl, rfl, rfl, ?_, ?_⟩
    · intro h0
      simp [h0, roundTo1]
    · intro hpos
      simp [hpos]

/-- Witness for C10: connector present and no progress row gives the idle
snapshot; a stored row with 1 of 4 processed items reports 25 percent. -/
theorem get_sync_progress_guarded_witness :
    get_sync_progress (wDb "idle" [] none) 1 =
      .ok { status := "idle", total_items := 0, processed_items := 0,
            indexed_items := 0, failed_items := 0, current_step := none,
            error_message := none, percent := 0,
            started_at := none, completed_at := none } ∧
    ∃ r, get_sync_progress
        (wDb "syncing" []
          (some { defaultProgress 1 with
                    status := "syncing", total_items := 4,
                    processed_items := 1 })) 1 = .ok r ∧
      r.percent = 25 := by
  constructor
  · exact (get_sync_progress_guarded (wDb "idle" [] none)
      (wConnector "idle") 1 rfl rfl).1 rfl
  · obtain ⟨r, hr, hrest⟩ := (get_sync_progress_guarded
      (wDb "syncing" []
        (some { defaultProgress 1 with
                  status := "syncing", total_items := 4,
                  processed_items := 1 }))
      (wConnector "syncing") 1 rfl rfl).2
      { defaultProgress 1 with
          status := "syncing", total_items := 4, processed_items := 1 } rfl
    refine ⟨r, hr, ?_⟩
    have h25 := hrest.2.2.2.2.2.2.2.2.2.2 (by norm_num)
    rw [h25]
    norm_num [roundTo1]

/-- C4: `startSync` while the connector is already `"syncing"` is rejected
with the "Sync already in progress" conflict and — the error being raised
before any write — returns no mutated state; from `"idle"`, `"completed"`
or `"failed"` it succeeds, resets the progress row to a zeroed `"syncing"`
snapshot with `started_at` set, error and `completed_at` cleared, and
moves the connector to `"syncing"`. -/
theorem start_sync_guard (db : SyncDb) (c : ConnectorRec) (tid now : Nat)
    (hc : db.connector = some c) (ht : c.tenant_id = tid) :
    (c.sync_status = "syncing" →
      start_sync db tid now =
        .error { status_code := 400, detail := "Sync already in progress" }) ∧
    (c.sync_status = "idle" ∨ c.sync_status = "completed" ∨
        c.sync_status = "failed" →
      start_sync db tid now = .ok
        { db with
          connector := some { c with sync_status := "syncing" },
          progress := some
            { (db.progress.getD (defaultProgress c.id)) with
              status := "syncing", total_items := 0, processed_items := 0,
              indexed_items := 0, failed_items := 0,
              current_step := some "Starting sync...",
              error_message := none, started_at := some now,
              completed_at := none } }) := by
  subst ht
  constructor
  · intro hs
    simp [start_sync, hc, hs]
  · intro hs
    have hns : ¬(c.sync_status = "syncing") := by
      rcases hs with h | h | h <;> simp [h]
    simp [start_sync, hc, hns]

/-- Witness for C4: a syncing connector is rejected; an idle connector is
reset and transitioned. -/
theorem start_sync_guard_witness :
    start_sync (wDb "syncing" [] none) 1 5 =
      .error { status_code := 400, detail := "Sync already in progress" } ∧
    start_sync (wDb "idle" [] none) 1 5 = .ok
      { wDb "idle" [] none with
        connector := some { wConnector "idle" with sync_status := "syncing" },
        progress := some
          { defaultProgress 1 with
            status := "syncing", total_items := 0, processed_items := 0,
            indexed_items := 0, failed_items := 0,
            current_step := some "Starting sync...",
            error_message := none, started_at := some 5,
            completed_at := none } } := by
  constructor
  · exact (start_sync_guard (wDb "syncing" [] none)
      (wConnector "syncing") 1 5 rfl rfl).1 rfl
  · exact (start_sync_guard (wDb "idle" [] none)
      (wConnector "idle") 1 5 rfl rfl).2 (Or.inl rfl)

/-- C2 (code evaluation): `get_messages` orders ascending and takes the
first `limit` rows, so on a session of eleven messages it returns the ten
**oldest** and drops the just-persisted newest message `c2Msg 10`. -/
theorem get_messages_takes_oldest :
    get_messages c2Msgs 1 10 = (List.range 10).map c2Msg ∧
    c2Msg 10 ∈ c2Msgs ∧
    c2Msg 10 ∉ get_messages c2Msgs 1 10 := by
  have hsorted : ((c2Msgs.filter fun m => m.session_id == 1).mergeSort
      fun a b => a.created_at ≤ b.created_at) =
      (c2Msgs.filter fun m => m.session_id == 1) :=
    List.mergeSort_of_sorted (by decide)
  have hgm : get_messages c2Msgs 1 10 =
      (c2Msgs.filter fun m => m.session_id == 1).take 10 := by
    unfold get_messages
    rw [hsorted]
  refine ⟨hgm.trans (by decide), by decide, ?_⟩
  rw [hgm]
  decide

/-- C5 (counterexample): called by tenant 1, `bulkAssignProject` rewrites
the project of a document owned by tenant 2 instead of filtering the id
out — the other tenant's row is modified. -/
theorem bulk_assign_crosses_tenants :
    foreignDoc.tenant_id ≠ 1 ∧
    bulk_assign_project_route [foreignDoc] 1 [1] 7 5 =
      ([{ foreignDoc with project_id := some 7, updated_at := 5 }], 1) ∧
    ({ foreignDoc with project_id := some 7, updated_at := 5 }) ≠ foreignDoc := by
  decide

/-- C5 (amended): tenant isolation differs per bulk operation.
`bulkDelete` silently filters by its tenant predicate, so other tenants'
rows always survive; the `bulkClassify` route pre-validates the id list
(erroring instead of filtering) and — assuming the primary-key invariant
that document ids are distinct — whenever it succeeds no other tenant's
row is touched by its tenant-unfiltered update; `bulkAssignProject`
consults no tenant at all and updates every row of the id set whoever
owns it. -/
theorem bulk_tenant_isolation_amended (docs : List Document) (t : Nat)
    (ids : List Nat) (bs : Nat) (label : String) (now pid : Nat) :
    (∀ d ∈ docs, d.tenant_id ≠ t →
      d ∈ (bulk_delete_documents docs ids t bs).1) ∧
    ((docs.map (·.id)).Nodup →
      ∀ res, bulk_classify_route docs t ids label now = .ok res →
        ∀ d ∈ docs, d.tenant_id ≠ t → d ∈ res.1) ∧
    (bulk_assign_project_route docs t ids pid now =
      (docs.map fun d =>
        if ids.contains d.id then
          { d with project_id := some pid, updated_at := now }
        else d,
       docs.countP fun d => ids.contains d.id)) := by
  refine ⟨?_, ?_, ?_⟩
  · -- bulkDelete: the tenant predicate preserves foreign rows
    intro d hd hten
    by_cases hids : ids.isEmpty
    · simpa [bulk_delete_documents, hids] using hd
    · have := (bulkDeleteChunks_spec t (chunksOf bs ids) docs).2.2.2 d hd hten
      simpa [bulk_delete_documents, hids] using this
  · -- bulkClassify route: success implies no requested id is foreign
    intro hnd res hok d hd hten
    by_cases hids : ids = []
    · subst hids
      have hroute : bulk_classify_route docs t [] label now = .ok (docs, 0) := rfl
      rw [hroute] at hok
      cases hok with
      | refl => exact hd
    · have hne : ids.isEmpty = false := by simpa [List.isEmpty_iff] using hids
      have hfound : (get_documents_by_ids docs ids t).1 =
          docs.filter fun d => ids.contains d.id && d.tenant_id == t := by
        simp [get_documents_by_ids, hne]
      -- extract the length check and the returned value from the route
      simp only [bulk_classify_route, hfound] at hok
      by_cases hlen : (docs.filter fun d =>
          ids.contains d.id && d.tenant_id == t).length ≠ ids.length
      · rw [if_pos hlen] at hok
        exact absurd hok (by simp)
      · rw [if_neg hlen] at hok
        push_neg at hlen
        have hres : res.1 = (bulk_classify_documents docs ids label 1 now).1 := by
          cases hok with
          | refl => rfl
        -- the counting argument: a foreign id in the list contradicts
        -- the equality of the verified count with the request length
        have hnotmem : d.id ∉ ids := by
          intro hmem
          set P := fun x : Document => ids.contains x.id && x.tenant_id == t with hP
          set F := (docs.filter P).map (·.id) with hF
          have hFnodup : F.Nodup :=
            ((List.filter_sublist docs).map (·.id)).nodup hnd
          have hdF : d.id ∉ F := by
            intro hin
            obtain ⟨d', hd'mem, hd'id⟩ := List.mem_map.mp hin
            have hd'f := List.mem_filter.mp hd'mem
            have hd'ten : d'.tenant_id = t := by
              have := hd'f.2
              rw [hP] at this
              simp only [Bool.and_eq_true, beq_iff_eq] at this
              exact this.2
            have : d' = d :=
              List.inj_on_of_nodup_map hnd hd'f.1 hd hd'id
            exact hten (this ▸ hd'ten)
          have hsub : F ⊆ ids.erase d.id := by
            intro x hx
            obtain ⟨d', hd'mem, hd'id⟩ := List.mem_map.mp hx
            have hd'f := List.mem_filter.mp hd'mem
            have hxids : x ∈ ids := by
              have := hd'f.2
              rw [hP] at this
              simp only [Bool.and_eq_true] at this
              have hcon := this.1
              rw [hd'id] at hcon
              simpa [List.contains, List.elem_eq_mem] using hcon
            have hxne : x ≠ d.id := fun e => hdF (e ▸ hx)
            exact (List.mem_erase_of_ne hxne).mpr hxids
          have hle : F.length ≤ (ids.erase d.id).length :=
            (hFnodup.subperm hsub).length_le
          have hFlen : F.length = ids.length := by
            rw [hF, List.length_map]
            exact hlen
          have herase : (ids.erase d.id).length = ids.length - 1 :=
            List.length_erase_of_mem hmem
          have hpos : 0 < ids.length :=
            List.length_pos.mpr (List.ne_nil_of_mem hmem)
          omega
        rw [hres]
        simp only [bulk_classify_documents, hne, Bool.false_eq_true,
          if_false, List.mem_map]
        exact ⟨d, hd, by
          simp only [contains_eq_false_of_not_mem hnotmem,
            Bool.false_eq_true, if_false]⟩
  · -- bulkAssignProject: tenant-independent update over the id set
    by_cases hids : ids.isEmpty
    · have : ids = [] := List.isEmpty_iff.mp hids
      subst this
      simp [bulk_assign_project_route, bulk_assign_project]
    · simp [bulk_assign_project_route, bulk_assign_project, hids]

/-- Witness for the amended C5: tenant 1 bulk-deletes id 1 but tenant 2's
row survives the tenant predicate; on a mixed-tenant table the classify
route succeeds for the id owned by tenant 1 and leaves tenant 2's row in
place. -/
theorem bulk_tenant_isolation_amended_witness :
    foreignDoc.tenant_id ≠ 1 ∧
    foreignDoc ∈ (bulk_delete_documents [foreignDoc] [1] 1 100).1 ∧
    ([wDoc, foreignDoc2].map (·.id)).Nodup ∧
    bulk_classify_route [wDoc, foreignDoc2] 1 [1] "work" 5 =
      .ok ([{ wDoc with
                classification := some "work",
                classification_confidence := some 1,
                status := DocumentStatus.classified,
                updated_at := 5 }, foreignDoc2], 1) ∧
    foreignDoc2 ∈ [{ wDoc with
        classification := some "work",
        classification_confidence := some 1,
        status := DocumentStatus.classified,
        updated_at := 5 }, foreignDoc2] := by
  refine ⟨by decide, ?_, by decide, rfl, ?_⟩
  · exact (bulk_tenant_isolation_amended [foreignDoc] 1 [1] 100 "work" 5 7).1
      foreignDoc (by decide) (by decide)
  · exact (bulk_tenant_isolation_amended [wDoc, foreignDoc2] 1 [1] 100
      "work" 5 7).2.1 (by decide)
      ([{ wDoc with
            classification := some "work",
            classification_confidence := some 1,
            status := DocumentStatus.classified,
            updated_at := 5 }, foreignDoc2], 1)
      rfl foreignDoc2 (by decide) (by decide)

/-- C3: whenever the body of the background sync task raises, the task —
which is a total function, so nothing escapes it and nothing retries —
stamps the progress row `failed` with `error_message = str(exception)` and
`completed_at = now`, and the connector `failed` with the same text in its
error field. -/
theorem sync_failure_recorded (hash : String → String) (db : SyncDb)
    (cid tid now : Nat) (ctype : String) (ck : Bool)
    (fetched : Except String (List RawItem))
    (upsert : List Document → Except String (List String))
    (e : String) (db' : SyncDb) (p : SyncProgressRec) (c : ConnectorRec)
    (hbody : run_sync_body hash db cid tid now ctype ck fetched upsert =
      .error (e, db'))
    (hp : db'.progress = some p) (hc : db'.connector = some c) :
    run_sync_task hash db cid tid now ctype ck fetched upsert =
      { db' with
        progress := some { p with
          status := "failed", error_message := some e,
          completed_at := some now },
        connector := some { c with
          sync_status := "failed", sync_error := some e } } := by
  unfold run_sync_task
  rw [hbody]
  simp only [sync_error_handler, hp, hc]

/-- Witness for C3: a connector fetch that raises "boom" after the task
stepped to the fetch phase is recorded on both rows. -/
theorem sync_failure_recorded_witness :
    run_sync_body (fun s => s) w3Db 1 1 9 "slack" true
      (.error "boom") (fun _ => .ok []) =
      .error ("boom", { w3Db with progress := some w3Prog }) ∧
    run_sync_task (fun s => s) w3Db 1 1 9 "slack" true
      (.error "boom") (fun _ => .ok []) =
      { w3Db with
        progress := some { w3Prog with
          status := "failed", error_message := some "boom",
          completed_at := some 9 },
        connector := some { wConnector "syncing" with
          sync_status := "failed", sync_error := some "boom" } } := by
  constructor
  · rfl
  · exact sync_failure_recorded (fun s => s) w3Db 1 1 9 "slack" true
      (.error "boom") (fun _ => .ok []) "boom"
      { w3Db with progress := some w3Prog } w3Prog (wConnector "syncing")
      rfl rfl rfl

theorem truthy_mem_syncExternalIds {items : List RawItem} {it : RawItem}
    {e : String} (hit : it ∈ items)
    (he : truthyStr it.external_id = some e) :
    e ∈ syncExternalIds items :=
  List.mem_filterMap.mpr ⟨it, hit, he⟩

/-- Items whose external ids are all already persisted for the connector
are all classified as known: the dedup split creates nothing. -/
theorem sync_new_items_eq_nil (docs : List Document) (items : List RawItem)
    (cid : Nat)
    (hknown : ∀ it ∈ items, ∃ e, truthyStr it.external_id = some e ∧
      ∃ d, d ∈ docs ∧ d.external_id = some e ∧ d.connector_id = some cid) :
    sync_new_items docs items cid = [] := by
  unfold sync_new_items
  simp only [List.filter_eq_nil_iff]
  intro it hit
  obtain ⟨e, he, d, hd, hde, hdc⟩ := hknown it hit
  rw [he]
  have hids : (syncExternalIds items).isEmpty = false := by
    simp [List.isEmpty_iff]
    exact List.ne_nil_of_mem (truthy_mem_syncExternalIds hit he)
  have hdmem : d ∈ (find_by_external_ids docs (syncExternalIds items) cid).1 := by
    simp only [find_by_external_ids, hids, Bool.false_eq_true, if_false]
    refine List.mem_filter.mpr ⟨hd, ?_⟩
    rw [hde, hdc]
    simp only [Bool.and_eq_true, beq_self_eq_true, and_true]
    simpa [List.contains, List.elem_eq_mem] using
      truthy_mem_syncExternalIds hit he
  have hkey : e ∈ knownExternalIds
      (find_by_external_ids docs (syncExternalIds items) cid).1 :=
    List.mem_filterMap.mpr ⟨d, hdmem, hde⟩
  simpa using hkey

/-- Evaluation of the sync task when the dedup split classifies every item
as known: one batched external-id lookup, no insert, progress completed
with its counters untouched. -/
theorem run_sync_task_all_known (hash : String → String) (db : SyncDb)
    (cid tid now : Nat) (ctype : String) (items : List RawItem)
    (upsert : List Document → Except String (List String))
    (p : SyncProgressRec) (c : ConnectorRec)
    (hp : db.progress = some p) (hc : db.connector = some c)
    (hids : (syncExternalIds items).isEmpty = false)
    (hnew : sync_new_items db.documents items cid = []) :
    run_sync_task hash db cid tid now ctype true (.ok items) upsert =
      { db with
        progress := some { p with
          total_items := items.length,
          current_step := some "Sync completed",
          status := "completed",
          completed_at := some now },
        connector := some { c with
          sync_status := "completed", last_sync_at := some now },
        ops := db.ops ++ [DbOp.findExternal] } := by
  have hfind : (find_by_external_ids db.documents
      (syncExternalIds items) cid).2 = [DbOp.findExternal] := by
    simp [find_by_external_ids, hids]
  unfold run_sync_task run_sync_body
  rw [hp]
  simp only [Bool.not_true, Bool.false_eq_true, if_false, hfind, hnew,
    List.isEmpty_nil, if_true, hc]

/-- C1: running the sync again against an unchanged source whose items all
carry external ids already persisted for the connector classifies every
item as known, performs the single batched lookup and no insert, leaves
the documents table (hence the connector's document count) unchanged, and
completes with `processed_items = 0` and `status = "completed"`. -/
theorem resync_unchanged_source_idempotent (hash : String → String)
    (db : SyncDb) (c : ConnectorRec) (tid now1 now2 : Nat) (ctype : String)
    (items : List RawItem)
    (upsert : List Document → Except String (List String))
    (hc : db.connector = some c) (ht : c.tenant_id = tid)
    (hs : c.sync_status ≠ "syncing") (hne : items ≠ [])
    (hknown : ∀ it ∈ items, ∃ e, truthyStr it.external_id = some e ∧
      ∃ d, d ∈ db.documents ∧ d.external_id = some e ∧
        d.connector_id = some c.id) :
    sync_new_items db.documents items c.id = [] ∧
    start_sync db tid now1 = .ok (startSyncResult db c now1) ∧
    run_sync_task hash (startSyncResult db c now1) c.id tid now2 ctype true
        (.ok items) upsert =
      { db with
        progress := some { startProgress db c now1 with
          total_items := items.length,
          current_step := some "Sync completed",
          status := "completed",
          completed_at := some now2 },
        connector := some { c with
          sync_status := "completed", last_sync_at := some now2 },
        ops := db.ops ++ [DbOp.findExternal] } ∧
    (startProgress db c now1).processed_items = 0 := by
  subst ht
  have hnew : sync_new_items db.documents items c.id = [] :=
    sync_new_items_eq_nil db.documents items c.id hknown
  have hids : (syncExternalIds items).isEmpty = false := by
    obtain ⟨it, hit⟩ := List.exists_mem_of_ne_nil items hne
    obtain ⟨e, he, -⟩ := hknown it hit
    simp [List.isEmpty_iff]
    exact List.ne_nil_of_mem (truthy_mem_syncExternalIds hit he)
  refine ⟨hnew, ?_, ?_, rfl⟩
  · simp [start_sync, hc, hs, startSyncResult, startProgress]
  · have := run_sync_task_all_known hash (startSyncResult db c now1) c.id
      c.tenant_id now2 ctype items upsert (startProgress db c now1)
      { c with sync_status := "syncing" } rfl rfl hids hnew
    exact this

/-- Witness for C1: a second sync of the single item "x" already persisted
as `wDoc` for connector 1 dedups everything and completes with zero
processed items. -/
theorem resync_unchanged_source_idempotent_witness :
    sync_new_items [wDoc] [wItem] 1 = [] ∧
    start_sync (wDb "completed" [wDoc] none) 1 4 =
      .ok (startSyncResult (wDb "completed" [wDoc] none)
        (wConnector "completed") 4) ∧
    run_sync_task (fun s => s)
        (startSyncResult (wDb "completed" [wDoc] none)
          (wConnector "completed") 4) 1 1 9 "slack" true
        (.ok [wItem]) (fun _ => .ok []) =
      { wDb "completed" [wDoc] none with
        progress := some { startProgress (wDb "completed" [wDoc] none)
            (wConnector "completed") 4 with
          total_items := 1,
          current_step := some "Sync completed",
          status := "completed",
          completed_at := some 9 },
        connector := some { wConnector "completed" with
          sync_status := "completed", last_sync_at := some 9 },
        ops := [DbOp.findExternal] } ∧
    (startProgress (wDb "completed" [wDoc] none)
      (wConnector "completed") 4).processed_items = 0 := by
  have h := resync_unchanged_source_idempotent (fun s => s)
    (wDb "completed" [wDoc] none) (wConnector "completed") 1 4 9 "slack"
    [wItem] (fun _ => .ok []) rfl rfl (by decide) (by decide)
    (by
      intro it hit
      have : it = wItem := by
        cases hit with
        | head => rfl
        | tail _ h => cases h
      subst this
      exact ⟨"x", rfl, wDoc, List.mem_singleton.mpr rfl, rfl, rfl⟩)
  exact h

end SecondBrain
